import Mathlib

/-!
Verification of the keycloak-vue Authentication State Facade.

This development shallowly embeds the reactive state store (`states.ts`),
the state-sync and event-callback wiring and facade operations
(`composable.ts`), and the plugin installer (`plugin.ts`) of the
keycloak-vue repository, and proves the testable properties of its
specification against the embedding.

Modelling conventions:
- JavaScript `string | undefined` fields become `Option String`
  (`none` = `undefined`), `T | null` becomes `Option T`.
- JavaScript truthiness on strings (`a || b` falls through when `a` is
  `undefined` or the empty string) is `jsOrStr`.
- A rejected promise / thrown `Error` is the `.error` branch of
  `Except String _`, carrying the error message.
- The external keycloak-js adapter is a black box: each facade operation
  takes the adapter's resolution (or rejection) and the adapter's field
  snapshot at the moment the store is synced, as explicit arguments.
-/

namespace KeycloakVue

/-- Parsed JWT claim set, the fields of `KeycloakTokenParsed` read by the
store and its derived getters. -/
structure TokenParsed where
  preferred_username : Option String := none
  email : Option String := none
  name : Option String := none
  given_name : Option String := none
  family_name : Option String := none
  exp : Option Int := none
  deriving Repr, DecidableEq

/-- User profile record (`KeycloakProfile`), the fields read by the
derived getters. -/
structure KeycloakProfile where
  username : Option String := none
  email : Option String := none
  firstName : Option String := none
  lastName : Option String := none
  deriving Repr, DecidableEq

/-- Realm-level role container (`KeycloakRealmAccess`). -/
structure KeycloakRealmAccess where
  roles : List String := []
  deriving Repr, DecidableEq

/-- Resource-access mapping (`KeycloakResourceAccess`), a JS object mapping
resource names to role containers, modelled as an association list. -/
def KeycloakResourceAccess := List (String × KeycloakRealmAccess)
  deriving Repr, DecidableEq

/-- The fields of the adapter instance (`KeycloakInstance`) that
`updateState` copies into the store: a snapshot of the adapter at a
state-sync point. -/
structure KeycloakInstance where
  authenticated : Option Bool := none
  token : Option String := none
  tokenParsed : Option TokenParsed := none
  idToken : Option String := none
  idTokenParsed : Option TokenParsed := none
  refreshToken : Option String := none
  refreshTokenParsed : Option TokenParsed := none
  subject : Option String := none
  realmAccess : Option KeycloakRealmAccess := none
  resourceAccess : Option KeycloakResourceAccess := none
  timeSkew : Option Int := none
  responseMode : Option String := none
  flow : Option String := none
  responseType : Option String := none
  deriving Repr, DecidableEq

/-- The reactive state record (`KeycloakState` in `states.ts`), with each
`Ref` replaced by its current value. The `instance` ref is not carried
here; the facade operations take the (optional) adapter handle as an
explicit argument instead. -/
structure KeycloakState where
  isAuthenticated : Bool
  isReady : Bool
  token : Option String
  tokenParsed : Option TokenParsed
  idToken : Option String
  idTokenParsed : Option TokenParsed
  refreshToken : Option String
  refreshTokenParsed : Option TokenParsed
  subject : Option String
  profile : Option KeycloakProfile
  realmAccess : Option KeycloakRealmAccess
  resourceAccess : Option KeycloakResourceAccess
  timeSkew : Option Int
  responseMode : Option String
  flow : Option String
  adapter : Option String
  responseType : Option String
  isLoading : Bool
  error : Option String
  deriving Repr, DecidableEq

/-- `createKeycloakState` from `states.ts`: the fresh store with all
fields at their documented defaults. -/
def createKeycloakState : KeycloakState where
  isAuthenticated := false
  isReady := false
  token := none
  tokenParsed := none
  idToken := none
  idTokenParsed := none
  refreshToken := none
  refreshTokenParsed := none
  subject := none
  profile := none
  realmAccess := none
  resourceAccess := none
  timeSkew := none
  responseMode := none
  flow := none
  adapter := none
  responseType := none
  isLoading := false
  error := none

/-- `updateState(state, instance)` from `composable.ts`: copies the fixed
set of adapter fields into the store. `inst.authenticated || false`
is `Option.getD false` (JS truthiness on `boolean | undefined`);
`inst.timeSkew ?? undefined` is the identity on `Option Int`. -/
def updateState (state : KeycloakState) (inst : KeycloakInstance) :
    KeycloakState :=
  { state with
    isAuthenticated := inst.authenticated.getD false
    token := inst.token
    tokenParsed := inst.tokenParsed
    idToken := inst.idToken
    idTokenParsed := inst.idTokenParsed
    refreshToken := inst.refreshToken
    refreshTokenParsed := inst.refreshTokenParsed
    subject := inst.subject
    realmAccess := inst.realmAccess
    resourceAccess := inst.resourceAccess
    timeSkew := inst.timeSkew
    responseMode := inst.responseMode
    flow := inst.flow
    responseType := inst.responseType }

/-- JS `a || b` on `string | undefined` values: returns `b` when `a` is
`undefined` or the empty string (both falsy), else `a`. -/
def jsOrStr (a b : Option String) : Option String :=
  match a with
  | some s => if s = "" then b else some s
  | none => b

/-- Error payload passed to the `onAuthError` adapter callback
(`KeycloakError`), with its two optional message fields. -/
structure KeycloakError where
  error : Option String := none
  error_description : Option String := none
  deriving Repr, DecidableEq

/-- Message of the `Error` built by the `onAuthError` handler:
`error?.error_description || error?.error || 'Authentication error'`. -/
def authErrorMessage (e : Option KeycloakError) : String :=
  (jsOrStr (jsOrStr (e.bind KeycloakError.error_description)
      (e.bind KeycloakError.error)) (some "Authentication error")).getD
    "Authentication error"

/-! Store mutations performed by the adapter event handlers registered in
`setupCallbacks` (`composable.ts`). The forwarded caller callbacks
(`callbacks?.onReady` etc.) do not touch the store and are omitted. -/

/-- Store effect of the `onReady(authenticated)` handler: sets
`isReady := true`, `isLoading := false`, then `updateState`. -/
def onReady (inst : KeycloakInstance) (state : KeycloakState) :
    KeycloakState :=
  updateState { state with isReady := true, isLoading := false } inst

/-- Store effect of the `onAuthSuccess` handler: `updateState`. -/
def onAuthSuccess (inst : KeycloakInstance) (state : KeycloakState) :
    KeycloakState :=
  updateState state inst

/-- Store effect of the `onAuthError(error)` handler: records the mapped
failure and clears `isLoading`. -/
def onAuthError (e : Option KeycloakError) (state : KeycloakState) :
    KeycloakState :=
  { state with error := some (authErrorMessage e), isLoading := false }

/-- Store effect of the `onAuthRefreshSuccess` handler: `updateState`. -/
def onAuthRefreshSuccess (inst : KeycloakInstance)
    (state : KeycloakState) : KeycloakState :=
  updateState state inst

/-- Store effect of the `onAuthRefreshError` handler. -/
def onAuthRefreshError (state : KeycloakState) : KeycloakState :=
  { state with isAuthenticated := false }

/-- Store effect of the `onAuthLogout` handler: it sets
`isAuthenticated := false` and `profile := null` and nothing else. -/
def onAuthLogout (state : KeycloakState) : KeycloakState :=
  { state with isAuthenticated := false, profile := none }

/-- Store effect of the `onTokenExpired` handler: none. -/
def onTokenExpired (state : KeycloakState) : KeycloakState :=
  state

/-! Facade operations from `composable.ts` (`initKeycloak`'s returned
methods). Each takes the optional adapter handle; when it is absent the
operation throws `Error('Keycloak instance not initialized')`
synchronously, before any store mutation. The adapter's asynchronous
resolution or rejection is an explicit argument; for sync points the
adapter handle argument doubles as the adapter's field snapshot at the
moment of the sync. -/

/-- The message of the synchronous missing-handle error thrown by every
facade operation. -/
def instanceNotInitializedMsg : String := "Keycloak instance not initialized"

/-- `DEFAULT_MIN_VALIDITY` from `constants.ts`. -/
def DEFAULT_MIN_VALIDITY : Nat := 5

/-- The store state after the first two statements of `init`'s try block
(`isLoading = true`, `error = null`), i.e. just before the delegated
adapter call. -/
def initPre (s : KeycloakState) : KeycloakState :=
  { s with isLoading := true, error := none }

/-- The `init(options)` facade operation. `res` is the adapter's
`init` resolution (authenticated flag) or rejection; on resolution the
store is synced from the adapter via `updateState`; on rejection the
error is recorded and rethrown; the `finally` block clears `isLoading`
on both paths. Returns the operation's own result with the post-state. -/
def init (inst : Option KeycloakInstance) (res : Except String Bool)
    (s : KeycloakState) : Except String Bool × KeycloakState :=
  match inst with
  | none => (.error instanceNotInitializedMsg, s)
  | some i =>
    match res with
    | .ok authenticated =>
      (.ok authenticated, { updateState (initPre s) i with isLoading := false })
    | .error e =>
      (.error e, { initPre s with error := some e, isLoading := false })

/-- The `updateToken(minValidity = DEFAULT_MIN_VALIDITY)` facade
operation. `minValidity = none` models an omitted argument, to which the
TS default parameter applies. `adapterUpdateToken` is the adapter's
`updateToken` capability, invoked at the effective minimum validity; a
resolution with `true` (token rotated) triggers `updateState`, a
resolution with `false` leaves the store untouched, a rejection is
recorded and rethrown. -/
def updateToken (inst : Option KeycloakInstance) (minValidity : Option Nat)
    (adapterUpdateToken : Nat → Except String Bool) (s : KeycloakState) :
    Except String Bool × KeycloakState :=
  match inst with
  | none => (.error instanceNotInitializedMsg, s)
  | some i =>
    match adapterUpdateToken (minValidity.getD DEFAULT_MIN_VALIDITY) with
    | .ok refreshed =>
      if refreshed then (.ok refreshed, updateState s i)
      else (.ok refreshed, s)
    | .error e => (.error e, { s with error := some e })

/-- The `loadUserProfile()` facade operation. `res` is the adapter's
`loadUserProfile` resolution or rejection: the resolved profile is
stored and returned; a rejection is recorded into `error` and rethrown
without touching `profile`. -/
def loadUserProfile (inst : Option KeycloakInstance)
    (res : Except String KeycloakProfile) (s : KeycloakState) :
    Except String KeycloakProfile × KeycloakState :=
  match inst with
  | none => (.error instanceNotInitializedMsg, s)
  | some _ =>
    match res with
    | .ok profile => (.ok profile, { s with profile := some profile })
    | .error e => (.error e, { s with error := some e })

/-- The `clearToken()` facade operation: delegates to the adapter's
`clearToken` and then syncs via `updateState`; `inst` is the adapter
snapshot after its local token clear. -/
def clearToken (inst : Option KeycloakInstance) (s : KeycloakState) :
    Except String Unit × KeycloakState :=
  match inst with
  | none => (.error instanceNotInitializedMsg, s)
  | some i => (.ok (), updateState s i)

/-! Derived getters from `createKeycloakGetters` (`states.ts`), as pure
projections of the current store state. -/

/-- The `username` getter:
`state.tokenParsed.value?.preferred_username || state.profile.value?.username`. -/
def username (s : KeycloakState) : Option String :=
  jsOrStr (s.tokenParsed.bind TokenParsed.preferred_username)
    (s.profile.bind KeycloakProfile.username)

/-- The `email` getter:
`state.tokenParsed.value?.email || state.profile.value?.email`. -/
def email (s : KeycloakState) : Option String :=
  jsOrStr (s.tokenParsed.bind TokenParsed.email)
    (s.profile.bind KeycloakProfile.email)

/-- The `fullName` getter: the profile-derived interpolation when both
`profile.firstName` and `profile.lastName` are truthy, else the token's
`name` claim. -/
def fullName (s : KeycloakState) : Option String :=
  match s.profile with
  | some p =>
    match p.firstName, p.lastName with
    | some fn, some ln =>
      if !fn.isEmpty && !ln.isEmpty then some (fn ++ " " ++ ln)
      else s.tokenParsed.bind TokenParsed.name
    | _, _ => s.tokenParsed.bind TokenParsed.name
  | none => s.tokenParsed.bind TokenParsed.name

/-- The `firstName` getter:
`state.profile.value?.firstName || state.tokenParsed.value?.given_name`. -/
def firstName (s : KeycloakState) : Option String :=
  jsOrStr (s.profile.bind KeycloakProfile.firstName)
    (s.tokenParsed.bind TokenParsed.given_name)

/-- The `lastName` getter:
`state.profile.value?.lastName || state.tokenParsed.value?.family_name`. -/
def lastName (s : KeycloakState) : Option String :=
  jsOrStr (s.profile.bind KeycloakProfile.lastName)
    (s.tokenParsed.bind TokenParsed.family_name)

/-- The `realmRoles` getter: `state.realmAccess.value?.roles || []`. -/
def realmRoles (s : KeycloakState) : List String :=
  (s.realmAccess.map KeycloakRealmAccess.roles).getD []

/-- The `resourceRoles(resource)` getter:
`state.resourceAccess.value?.[resource]?.roles || []`. -/
def resourceRoles (s : KeycloakState) (resource : String) : List String :=
  match s.resourceAccess with
  | some ra =>
    match (List.lookup resource ra : Option KeycloakRealmAccess) with
    | some access => access.roles
    | none => []
  | none => []

/-! The `useKeycloak` accessor and the plugin installer. -/

/-- The facade handle provided by the plugin and retrieved by
`useKeycloak` (`UseKeycloakReturn`): for the accessor's control flow
only the wrapped store matters, the methods close over it. -/
structure UseKeycloakReturn where
  state : KeycloakState
  deriving Repr, DecidableEq

/-- The message of the `Error` thrown by `useKeycloak` when nothing was
provided under the injection key. -/
def keycloakNotInitializedMsg : String :=
  "Keycloak not initialized. Make sure to install the plugin with app.use(createKeycloakPlugin(config))"

/-- `useKeycloak()` from `composable.ts`: `inject` yields the provided
handle or `undefined`; an absent handle raises the explanatory `Error`
rather than being dereferenced. -/
def useKeycloak (injected : Option UseKeycloakReturn) :
    Except String UseKeycloakReturn :=
  match injected with
  | none => .error keycloakNotInitializedMsg
  | some keycloak => .ok keycloak

/-- `KeycloakPluginOptions.autoInit` (`plugin.ts`): `boolean | undefined`,
`none` models an omitted field. Config, initOptions and callbacks do not
influence the control flow modelled here. -/
structure KeycloakPluginOptions where
  autoInit : Option Bool := none
  deriving Repr, DecidableEq

/-- `install` of the plugin returned by `createKeycloakPlugin`
(`plugin.ts`): after providing the handle it runs
`keycloak.init(options.initOptions)` whenever `options.autoInit !== false`
and swallows a rejection with `.catch` (logging only), so `install`
itself always returns normally — modelled by the total return type.
Returns the post-install store state and whether `init` was invoked. -/
def installPlugin (options : KeycloakPluginOptions)
    (inst : Option KeycloakInstance) (res : Except String Bool)
    (s : KeycloakState) : KeycloakState × Bool :=
  if options.autoInit ≠ some false then
    ((init inst res s).2, true)
  else
    (s, false)

/-! A closed alphabet of every store-mutating point in the facade
lifetime: the seven adapter event handlers and the store-touching facade
operations. `opDelegated` stands for the purely delegating operations
(`login`, `logout`, `register`, `accountManagement` and the URL
builders), none of which mutates the store. -/

/-- One adapter event or facade operation, with the adapter data it
carries. -/
inductive FacadeEvent where
  | evReady (inst : KeycloakInstance)
  | evAuthSuccess (inst : KeycloakInstance)
  | evAuthError (err : Option KeycloakError)
  | evAuthRefreshSuccess (inst : KeycloakInstance)
  | evAuthRefreshError
  | evAuthLogout
  | evTokenExpired
  | opInit (inst : Option KeycloakInstance) (res : Except String Bool)
  | opUpdateToken (inst : Option KeycloakInstance) (minValidity : Option Nat)
      (call : Nat → Except String Bool)
  | opLoadUserProfile (inst : Option KeycloakInstance)
      (res : Except String KeycloakProfile)
  | opClearToken (inst : Option KeycloakInstance)
  | opDelegated

/-- The store transition of one event or operation. -/
def step (s : KeycloakState) (e : FacadeEvent) : KeycloakState :=
  match e with
  | .evReady i => onReady i s
  | .evAuthSuccess i => onAuthSuccess i s
  | .evAuthError err => onAuthError err s
  | .evAuthRefreshSuccess i => onAuthRefreshSuccess i s
  | .evAuthRefreshError => onAuthRefreshError s
  | .evAuthLogout => onAuthLogout s
  | .evTokenExpired => onTokenExpired s
  | .opInit inst res => (init inst res s).2
  | .opUpdateToken inst minValidity call => (updateToken inst minValidity call s).2
  | .opLoadUserProfile inst res => (loadUserProfile inst res s).2
  | .opClearToken inst => (clearToken inst s).2
  | .opDelegated => s

/-- Whether an event is the adapter's `onReady` event. -/
def isReadyEvent : FacadeEvent → Bool
  | .evReady _ => true
  | _ => false

/-! Helper lemmas shared by the claim theorems. -/

/-- `updateState` does not touch the `isReady` flag. -/
theorem updateState_isReady (s : KeycloakState) (i : KeycloakInstance) :
    (updateState s i).isReady = s.isReady := rfl

/-- `init` leaves `isReady` unchanged on every path. -/
theorem init_isReady (inst : Option KeycloakInstance)
    (res : Except String Bool) (s : KeycloakState) :
    (init inst res s).2.isReady = s.isReady := by
  cases inst <;> cases res <;> rfl

/-- `updateToken` leaves `isReady` unchanged on every path. -/
theorem updateToken_isReady (inst : Option KeycloakInstance)
    (minValidity : Option Nat) (call : Nat → Except String Bool)
    (s : KeycloakState) :
    (updateToken inst minValidity call s).2.isReady = s.isReady := by
  cases inst with
  | none => rfl
  | some i =>
    show (match call (minValidity.getD DEFAULT_MIN_VALIDITY) with
      | .ok refreshed =>
        if refreshed then ((Except.ok refreshed : Except String Bool), updateState s i)
        else (.ok refreshed, s)
      | .error e => (.error e, { s with error := some e })).2.isReady = s.isReady
    cases call (minValidity.getD DEFAULT_MIN_VALIDITY) with
    | ok refreshed => cases refreshed <;> rfl
    | error e => rfl

/-- `loadUserProfile` leaves `isReady` unchanged on every path. -/
theorem loadUserProfile_isReady (inst : Option KeycloakInstance)
    (res : Except String KeycloakProfile) (s : KeycloakState) :
    (loadUserProfile inst res s).2.isReady = s.isReady := by
  cases inst <;> cases res <;> rfl

/-- `clearToken` leaves `isReady` unchanged on every path. -/
theorem clearToken_isReady (inst : Option KeycloakInstance)
    (s : KeycloakState) :
    (clearToken inst s).2.isReady = s.isReady := by
  cases inst <;> rfl

/-- Every event other than the adapter's ready event leaves `isReady`
exactly as it was. -/
theorem step_isReady_of_not_ready_event (s : KeycloakState)
    (e : FacadeEvent) (h : isReadyEvent e = false) :
    (step s e).isReady = s.isReady := by
  cases e with
  | evReady i => simp [isReadyEvent] at h
  | evAuthSuccess i => rfl
  | evAuthError err => rfl
  | evAuthRefreshSuccess i => rfl
  | evAuthRefreshError => rfl
  | evAuthLogout => rfl
  | evTokenExpired => rfl
  | opInit inst res => exact init_isReady inst res s
  | opUpdateToken inst minValidity call =>
    exact updateToken_isReady inst minValidity call s
  | opLoadUserProfile inst res => exact loadUserProfile_isReady inst res s
  | opClearToken inst => exact clearToken_isReady inst s
  | opDelegated => rfl

/-- A single step preserves `isReady = true`. -/
theorem step_isReady_mono (s : KeycloakState) (e : FacadeEvent)
    (h : s.isReady = true) : (step s e).isReady = true := by
  cases he : isReadyEvent e with
  | true =>
    cases e with
    | evReady i => simp [step, onReady, updateState_isReady]
    | _ => simp [isReadyEvent] at he
  | false => rw [step_isReady_of_not_ready_event s e he]; exact h

/-- One `updateState` step preserves the token invariant, provided the
snapshot is sound (`authenticated = true` only with a token). -/
theorem updateState_auth_token (s : KeycloakState) (i : KeycloakInstance)
    (hi : i.authenticated = some true → i.token.isSome) :
    (updateState s i).isAuthenticated = true →
      (updateState s i).token.isSome := by
  intro h
  have : i.authenticated = some true := by
    cases ha : i.authenticated with
    | none => rw [show (updateState s i).isAuthenticated = i.authenticated.getD false from rfl, ha] at h; exact absurd h (by decide)
    | some b =>
      cases b with
      | false => rw [show (updateState s i).isAuthenticated = i.authenticated.getD false from rfl, ha] at h; exact absurd h (by decide)
      | true => rfl
  show i.token.isSome
  exact hi this

/-- Adapter snapshots used in C1: a snapshot is sound when
`authenticated = true` comes with a present token. -/
def soundSnapshot (i : KeycloakInstance) : Prop :=
  i.authenticated = some true → i.token.isSome

instance (i : KeycloakInstance) : Decidable (soundSnapshot i) := by
  unfold soundSnapshot; infer_instance

/-- C1: the fresh store starts unauthenticated, and for every sequence of
state-sync calls (`updateState` applied to adapter snapshots, each of
which carries a token whenever it is authenticated) starting from a
store satisfying the invariant, the resulting store never has
`isAuthenticated = true` with the access token field absent. -/
theorem updateState_never_authenticated_without_token :
    createKeycloakState.isAuthenticated = false ∧
    ∀ (s : KeycloakState) (snaps : List KeycloakInstance),
      (s.isAuthenticated = true → s.token.isSome) →
      (∀ i ∈ snaps, soundSnapshot i) →
      ((snaps.foldl updateState s).isAuthenticated = true →
        (snaps.foldl updateState s).token.isSome) := by
  refine ⟨rfl, ?_⟩
  intro s snaps hs hsnaps
  induction snaps generalizing s with
  | nil => exact hs
  | cons i rest ih =>
    have hi : soundSnapshot i := hsnaps i (List.mem_cons_self i rest)
    have hrest : ∀ j ∈ rest, soundSnapshot j :=
      fun j hj => hsnaps j (List.mem_cons_of_mem i hj)
    exact ih (updateState s i) (updateState_auth_token s i hi) hrest

/-- Concrete sound snapshot used by the C1 witness. -/
def sampleAuthSnapshot : KeycloakInstance :=
  { authenticated := some true, token := some "sample-access-token" }

/-- C1 witness: the invariant theorem applied to the fresh store and a
one-snapshot sequence. -/
theorem updateState_never_authenticated_without_token_witness :
    (([sampleAuthSnapshot].foldl updateState createKeycloakState).token).isSome :=
  updateState_never_authenticated_without_token.2 createKeycloakState
    [sampleAuthSnapshot] (by decide) (by decide) (by decide)

/-- Concrete authenticated store state used to exercise the logout
handler. -/
def sampleLoggedInState : KeycloakState :=
  { createKeycloakState with
    isAuthenticated := true
    token := some "access-token"
    tokenParsed := some { preferred_username := some "alice" }
    idToken := some "id-token"
    refreshToken := some "refresh-token"
    profile := some { username := some "alice" } }

/-- C2 counterexample: on the logout event the handler does set
`isAuthenticated = false` and clear the profile, but it does not clear
any of the token fields — after the handler runs on an authenticated
state, the access, id and refresh tokens and the parsed claim set are
all still present, refuting the claimed token clearing. -/
theorem onAuthLogout_counterexample :
    (onAuthLogout sampleLoggedInState).isAuthenticated = false ∧
    (onAuthLogout sampleLoggedInState).profile = none ∧
    (onAuthLogout sampleLoggedInState).token = some "access-token" ∧
    (onAuthLogout sampleLoggedInState).idToken = some "id-token" ∧
    (onAuthLogout sampleLoggedInState).refreshToken = some "refresh-token" ∧
    (onAuthLogout sampleLoggedInState).tokenParsed ≠ none := by
  refine ⟨rfl, rfl, rfl, rfl, rfl, by decide⟩

/-- C2 amended: the logout handler sets `isAuthenticated = false` and
clears the profile, and leaves every other store field — in particular
the three tokens and their parsed claim sets — unchanged. -/
theorem onAuthLogout_spec (s : KeycloakState) :
    (onAuthLogout s).isAuthenticated = false ∧
    (onAuthLogout s).profile = none ∧
    (onAuthLogout s).token = s.token ∧
    (onAuthLogout s).tokenParsed = s.tokenParsed ∧
    (onAuthLogout s).idToken = s.idToken ∧
    (onAuthLogout s).idTokenParsed = s.idTokenParsed ∧
    (onAuthLogout s).refreshToken = s.refreshToken ∧
    (onAuthLogout s).refreshTokenParsed = s.refreshTokenParsed ∧
    (onAuthLogout s).isReady = s.isReady ∧
    (onAuthLogout s).isLoading = s.isLoading ∧
    (onAuthLogout s).error = s.error :=
  ⟨rfl, rfl, rfl, rfl, rfl, rfl, rfl, rfl, rfl, rfl, rfl⟩

/-- C3: with an existing adapter handle, `init` sets `isLoading = true`
and clears `error` before delegating (the `initPre` intermediate state);
on adapter resolution it returns the authenticated flag with the store
fully synced from the adapter; on rejection it records the error into
the store and re-raises the same error; and `isLoading` is `false` on
every exit path. -/
theorem init_spec (i : KeycloakInstance) (res : Except String Bool)
    (s : KeycloakState) :
    ((initPre s).isLoading = true ∧ (initPre s).error = none) ∧
    (init (some i) res s).2.isLoading = false ∧
    (∀ b, res = .ok b →
      (init (some i) res s).1 = .ok b ∧
      (init (some i) res s).2 =
        { updateState (initPre s) i with isLoading := false }) ∧
    (∀ e, res = .error e →
      (init (some i) res s).1 = .error e ∧
      (init (some i) res s).2 =
        { s with error := some e, isLoading := false }) := by
  refine ⟨⟨rfl, rfl⟩, ?_, ?_, ?_⟩
  · cases res <;> rfl
  · intro b hb; subst hb; exact ⟨rfl, rfl⟩
  · intro e he; subst he; exact ⟨rfl, rfl⟩

/-- C3 witness: `init_spec` at a concrete adapter snapshot, for both a
resolving and a rejecting adapter call on the fresh store. -/
theorem init_spec_witness :
    ((init (some sampleAuthSnapshot) (.ok true) createKeycloakState).1 =
        .ok true ∧
      (init (some sampleAuthSnapshot) (.ok true) createKeycloakState).2.isLoading =
        false) ∧
    ((init (some sampleAuthSnapshot) (.error "init failed") createKeycloakState).2.error =
      some "init failed") :=
  ⟨⟨((init_spec sampleAuthSnapshot (.ok true) createKeycloakState).2.2.1 true
      rfl).1,
    (init_spec sampleAuthSnapshot (.ok true) createKeycloakState).2.1⟩,
   by
    rw [((init_spec sampleAuthSnapshot (.error "init failed")
        createKeycloakState).2.2.2 "init failed" rfl).2]⟩

/-- C4: `updateToken` defaults an omitted `minValidity` to
`DEFAULT_MIN_VALIDITY = 5` seconds; when the adapter reports a rotation
the store is synced from the adapter and `true` is returned; when the
adapter reports no rotation, `false` is returned with the store exactly
equal to its pre-call value; when the adapter rejects, the error is
recorded into the store and re-raised. -/
theorem updateToken_spec (i : KeycloakInstance) (minValidity : Option Nat)
    (call : Nat → Except String Bool) (s : KeycloakState) :
    DEFAULT_MIN_VALIDITY = 5 ∧
    updateToken (some i) none call s =
      updateToken (some i) (some DEFAULT_MIN_VALIDITY) call s ∧
    (call (minValidity.getD DEFAULT_MIN_VALIDITY) = .ok true →
      updateToken (some i) minValidity call s = (.ok true, updateState s i)) ∧
    (call (minValidity.getD DEFAULT_MIN_VALIDITY) = .ok false →
      updateToken (some i) minValidity call s = (.ok false, s)) ∧
    (∀ e, call (minValidity.getD DEFAULT_MIN_VALIDITY) = .error e →
      updateToken (some i) minValidity call s =
        (.error e, { s with error := some e })) := by
  refine ⟨rfl, rfl, ?_, ?_, ?_⟩
  · intro h
    show (match call ((minValidity.getD DEFAULT_MIN_VALIDITY)) with
      | .ok refreshed =>
        if refreshed then ((Except.ok refreshed : Except String Bool), updateState s i)
        else (.ok refreshed, s)
      | .error e => (.error e, { s with error := some e })) =
      (.ok true, updateState s i)
    rw [h]
    rfl
  · intro h
    show (match call ((minValidity.getD DEFAULT_MIN_VALIDITY)) with
      | .ok refreshed =>
        if refreshed then ((Except.ok refreshed : Except String Bool), updateState s i)
        else (.ok refreshed, s)
      | .error e => (.error e, { s with error := some e })) =
      (.ok false, s)
    rw [h]
    rfl
  · intro e h
    show (match call ((minValidity.getD DEFAULT_MIN_VALIDITY)) with
      | .ok refreshed =>
        if refreshed then ((Except.ok refreshed : Except String Bool), updateState s i)
        else (.ok refreshed, s)
      | .error e => (.error e, { s with error := some e })) =
      (.error e, { s with error := some e })
    rw [h]

/-- C4 witness: `updateToken_spec` with an omitted `minValidity` and an
adapter reporting no rotation leaves the fresh store byte-identical. -/
theorem updateToken_spec_witness :
    updateToken (some sampleAuthSnapshot) none (fun _ => .ok false)
      createKeycloakState = (.ok false, createKeycloakState) :=
  (updateToken_spec sampleAuthSnapshot none (fun _ => .ok false)
    createKeycloakState).2.2.2.1 rfl

/-- C6: with an existing adapter handle, a rejecting `loadUserProfile`
leaves `profile` exactly at its pre-call value, records the failure into
`error`, and propagates the rejection to the caller; a resolving call
stores the returned profile and returns it. -/
theorem loadUserProfile_spec (i : KeycloakInstance)
    (res : Except String KeycloakProfile) (s : KeycloakState) :
    (∀ e, res = .error e →
      (loadUserProfile (some i) res s).1 = .error e ∧
      (loadUserProfile (some i) res s).2.profile = s.profile ∧
      (loadUserProfile (some i) res s).2.error = some e) ∧
    (∀ p, res = .ok p →
      (loadUserProfile (some i) res s).1 = .ok p ∧
      (loadUserProfile (some i) res s).2.profile = some p) := by
  constructor
  · intro e he; subst he; exact ⟨rfl, rfl, rfl⟩
  · intro p hp; subst hp; exact ⟨rfl, rfl⟩

/-- C6 witness: `loadUserProfile_spec` at a concrete rejection on the
fresh store: the profile stays absent and the error is recorded. -/
theorem loadUserProfile_spec_witness :
    (loadUserProfile (some sampleAuthSnapshot) (.error "profile fetch failed")
        createKeycloakState).2.profile = none ∧
    (loadUserProfile (some sampleAuthSnapshot) (.error "profile fetch failed")
        createKeycloakState).2.error = some "profile fetch failed" :=
  ⟨((loadUserProfile_spec sampleAuthSnapshot (.error "profile fetch failed")
      createKeycloakState).1 "profile fetch failed" rfl).2.1,
   ((loadUserProfile_spec sampleAuthSnapshot (.error "profile fetch failed")
      createKeycloakState).1 "profile fetch failed" rfl).2.2⟩

/-- C5: `isReady` is monotonic over every sequence of adapter events and
facade operations: the fresh store starts with `isReady = false`, only
the adapter's ready event can turn it on, a single step never turns it
off, and any sequence of steps (repeated init calls included) preserves
`isReady = true` once reached. -/
theorem isReady_monotonic :
    createKeycloakState.isReady = false ∧
    (∀ (s : KeycloakState) (e : FacadeEvent),
      s.isReady = true → (step s e).isReady = true) ∧
    (∀ (s : KeycloakState) (events : List FacadeEvent),
      s.isReady = true → (events.foldl step s).isReady = true) ∧
    (∀ (s : KeycloakState) (e : FacadeEvent),
      (step s e).isReady = true → s.isReady = true ∨ isReadyEvent e = true) := by
  refine ⟨rfl, step_isReady_mono, ?_, ?_⟩
  · intro s events hs
    induction events generalizing s with
    | nil => exact hs
    | cons e rest ih => exact ih (step s e) (step_isReady_mono s e hs)
  · intro s e h
    cases he : isReadyEvent e with
    | true => exact Or.inr rfl
    | false =>
      rw [step_isReady_of_not_ready_event s e he] at h
      exact Or.inl h

/-- C5 witness: `isReady_monotonic` applied to the store right after the
ready event, followed by a repeated init operation: readiness is kept. -/
theorem isReady_monotonic_witness :
    (([FacadeEvent.opInit (some sampleAuthSnapshot) (.ok true)].foldl step
        (step createKeycloakState
          (FacadeEvent.evReady sampleAuthSnapshot))).isReady) = true :=
  isReady_monotonic.2.2.1
    (step createKeycloakState (FacadeEvent.evReady sampleAuthSnapshot))
    [FacadeEvent.opInit (some sampleAuthSnapshot) (.ok true)] (by decide)

/-- Store state used by the C7 counterexample: a parsed access token
whose preferred-username claim is present but empty, next to a profile
with a username. -/
def emptyClaimState : KeycloakState :=
  { createKeycloakState with
    tokenParsed := some { preferred_username := some "" }
    profile := some { username := some "prof_user" } }

/-- C7 counterexample: it is not true that whenever token and profile
are both present with differing usernames the getter returns the token
claim — with the present-but-empty claim `preferred_username = ""` and
`profile.username = "prof_user"` (which differ), the getter returns the
profile username, so the token claim does not win and "profile only when
the token claim is absent" fails. -/
theorem username_counterexample :
    ¬ (∀ (s : KeycloakState) (tp : TokenParsed) (p : KeycloakProfile)
        (u v : String),
        s.tokenParsed = some tp → s.profile = some p →
        tp.preferred_username = some u → p.username = some v → u ≠ v →
        username s = some u) := by
  intro h
  have h2 := h emptyClaimState ⟨some "", none, none, none, none, none⟩
    ⟨some "prof_user", none, none, none⟩ "" "prof_user" rfl rfl rfl rfl
    (by decide)
  exact absurd h2 (by decide)

/-- C7 amended: the token's preferred-username claim wins whenever it is
present and non-empty (regardless of any profile value); the profile's
username is returned whenever the token claim is absent or empty. -/
theorem username_spec (s : KeycloakState) (tp : TokenParsed)
    (htp : s.tokenParsed = some tp) :
    (∀ u, tp.preferred_username = some u → u ≠ "" → username s = some u) ∧
    ((tp.preferred_username = none ∨ tp.preferred_username = some "") →
      username s = s.profile.bind KeycloakProfile.username) := by
  constructor
  · intro u hu hne
    simp [username, htp, hu, jsOrStr, hne]
  · intro habs
    cases habs with
    | inl h => simp [username, htp, h, jsOrStr]
    | inr h => simp [username, htp, h, jsOrStr]

/-- Store state realising the concrete case of C7: token claim
`tok_user`, profile username `prof_user`. -/
def disagreeingNamesState : KeycloakState :=
  { createKeycloakState with
    tokenParsed := some { preferred_username := some "tok_user" }
    profile := some { username := some "prof_user" } }

/-- C7 witness: `username_spec` at the concrete case of the claim —
token claim `tok_user` and profile username `prof_user` yield
`tok_user`. -/
theorem username_spec_witness :
    username disagreeingNamesState = some "tok_user" :=
  (username_spec disagreeingNamesState
      ⟨some "tok_user", none, none, none, none, none⟩ rfl).1 "tok_user" rfl
    (by decide)

/-- C8: calling `useKeycloak` when nothing was ever provided yields the
distinct, non-empty explanatory configuration error rather than a
dereference of an absent handle, and with a provided handle it returns
exactly that handle. -/
theorem useKeycloak_spec :
    useKeycloak none = .error keycloakNotInitializedMsg ∧
    keycloakNotInitializedMsg ≠ "" ∧
    ∀ k, useKeycloak (some k) = .ok k :=
  ⟨rfl, by decide, fun _ => rfl⟩

/-- Store state with a present-but-empty `given_name` claim and no
profile, exercising the terminal fallback position. -/
def emptyGivenNameState : KeycloakState :=
  { createKeycloakState with tokenParsed := some { given_name := some "" } }

/-- C9 counterexample: the empty-equals-absent reading fails for the
claims sitting in the terminal fallback position — with no profile and
`given_name = ""`, the `firstName` getter returns the empty string
as-is instead of treating the claim as absent (which would give an
absent result). -/
theorem getters_truthiness_counterexample :
    ¬ (∀ (s : KeycloakState) (tp : TokenParsed),
        s.tokenParsed = some tp → tp.given_name = some "" →
        firstName s =
          firstName { s with tokenParsed := some { tp with given_name := none } }) := by
  intro h
  have h2 := h emptyGivenNameState ⟨none, none, none, some "", none, none⟩
    rfl rfl
  exact absurd h2 (by decide)

/-- C9 amended: for the claims consulted in the deciding position of a
fallback — the token's preferred-username and email, and the profile's
first and last name — a present-but-empty string behaves like an absent
value and the getter falls through to the alternative source (in
particular an empty `profile.firstName` makes `fullName` fall back to
the token's name claim); but `given_name`/`family_name`, sitting in the
terminal fallback position, are returned as-is when empty. -/
theorem getters_truthiness_spec (s : KeycloakState) :
    (s.tokenParsed.bind TokenParsed.preferred_username = some "" →
      username s = s.profile.bind KeycloakProfile.username) ∧
    (s.tokenParsed.bind TokenParsed.email = some "" →
      email s = s.profile.bind KeycloakProfile.email) ∧
    (s.profile.bind KeycloakProfile.firstName = some "" →
      firstName s = s.tokenParsed.bind TokenParsed.given_name) ∧
    (s.profile.bind KeycloakProfile.lastName = some "" →
      lastName s = s.tokenParsed.bind TokenParsed.family_name) ∧
    (s.profile.bind KeycloakProfile.firstName = some "" →
      fullName s = s.tokenParsed.bind TokenParsed.name) ∧
    (s.profile.bind KeycloakProfile.firstName = none →
      s.tokenParsed.bind TokenParsed.given_name = some "" →
      firstName s = some "") := by
  refine ⟨?_, ?_, ?_, ?_, ?_, ?_⟩
  · intro h; simp [username, h, jsOrStr]
  · intro h; simp [email, h, jsOrStr]
  · intro h; simp [firstName, h, jsOrStr]
  · intro h; simp [lastName, h, jsOrStr]
  · intro h
    cases hp : s.profile with
    | none => rw [hp] at h; simp at h
    | some p =>
      rw [hp] at h
      simp at h
      unfold fullName
      rw [hp]
      cases hln : p.lastName with
      | none => simp [h, hln]
      | some ln =>
        simp [h, hln]
        intro hfalse
        exact absurd hfalse (by decide)
  · intro h1 h2; simp [firstName, h1, h2, jsOrStr]

/-- C9 witness: `getters_truthiness_spec` at the two concrete cases of
the claim that hold — the empty preferred-username claim falls back to
the profile username, and the empty terminal `given_name` comes through
as the empty string. -/
theorem getters_truthiness_spec_witness :
    username emptyClaimState = some "prof_user" ∧
    firstName emptyGivenNameState = some "" :=
  ⟨((getters_truthiness_spec emptyClaimState).1 rfl).trans rfl,
   (getters_truthiness_spec emptyGivenNameState).2.2.2.2.2 rfl rfl⟩

/-- C10: during plugin installation, `init` is invoked exactly when
`autoInit` is not literally `false` (an omitted `autoInit` included); a
rejection of that automatic `init` is swallowed by the `.catch`, so
`install` always returns normally (the total return type) and the
failure is observable in the store's error field, which `init` has set;
with `autoInit = false` the install leaves the store untouched and runs
no init. -/
theorem installPlugin_spec (options : KeycloakPluginOptions)
    (inst : Option KeycloakInstance) (res : Except String Bool)
    (s : KeycloakState) :
    ((installPlugin options inst res s).2 = true ↔
      options.autoInit ≠ some false) ∧
    (∀ i e, options.autoInit ≠ some false → inst = some i →
      res = .error e →
      (installPlugin options inst res s).1.error = some e) ∧
    (options.autoInit = some false →
      installPlugin options inst res s = (s, false)) := by
  refine ⟨?_, ?_, ?_⟩
  · by_cases h : options.autoInit = some false <;> simp [installPlugin, h]
  · intro i e hne hi he
    subst hi; subst he
    show (if options.autoInit ≠ some false then
        ((init (some i) (.error e) s).2, true)
      else (s, false)).1.error = some e
    rw [if_pos hne]
    rfl
  · intro h
    show (if options.autoInit ≠ some false then ((init inst res s).2, true)
      else (s, false)) = (s, false)
    rw [if_neg (fun hc => hc h)]

/-- C10 witness: `installPlugin_spec` at an omitted `autoInit` with a
rejecting adapter init (error recorded, install returns normally), and
at `autoInit = false` (no init, store untouched). -/
theorem installPlugin_spec_witness :
    (installPlugin ⟨none⟩ (some sampleAuthSnapshot) (.error "init failed")
        createKeycloakState).1.error = some "init failed" ∧
    installPlugin ⟨some false⟩ (some sampleAuthSnapshot) (.ok true)
        createKeycloakState = (createKeycloakState, false) :=
  ⟨(installPlugin_spec ⟨none⟩ (some sampleAuthSnapshot) (.error "init failed")
      createKeycloakState).2.1 sampleAuthSnapshot "init failed" (by decide)
      rfl rfl,
   (installPlugin_spec ⟨some false⟩ (some sampleAuthSnapshot) (.ok true)
      createKeycloakState).2.2 rfl⟩

end KeycloakVue
